import Mathlib

/-!
Verification of `gin/tf/utils.py` (gin-config TensorFlow utilities).

The file under study contains two independent units:
  * `singleton_per_graph`, a memoization helper delegating to the
    configuration framework's singleton registry, keyed by
    (current scope string, current default graph);
  * `GinConfigSaverHook`, a session hook whose `after_create_session`
    callback writes the operative configuration to a file and optionally
    appends a text summary record through a summary writer.

The embedding models external effects (filesystem, summary event stream)
as explicit state, and the external framework services (operative config
text, markdown conversion, writer cache, global-step lookup) as an
environment record.  Points at which the external frameworks may raise
are represented by fault flags in the environment; an exception stops
the remaining effects but earlier effects on the world persist, exactly
as in the Python original.
-/

namespace GinTfUtils

/-- A summary writer handle.  `truthy` records how the Python object
evaluates in boolean context (`if not self._summary_writer`); a real
`FileWriter` is truthy, but the constructor accepts any object. -/
structure Writer where
  id : Nat
  truthy : Bool
deriving DecidableEq, Repr

/-- The summary record built in `after_create_session`: tag
`gin/{base_name}`, the markdown payload placed in the text tensor, and
the plugin metadata (`plugin_name = 'text'`, `content = b'{}'`). -/
structure SummaryRecord where
  tag : String
  payload : String
  pluginName : String
  pluginContent : String
deriving DecidableEq, Repr

/-- Observable external actions performed by the hook, in order. -/
inductive Action where
  | makedirs (dir : String)
  | writeFile (path : String) (contents : String)
  | cacheGet (dir : String)
  | addSummary (writerId : Nat) (record : SummaryRecord) (step : Nat)
  | flush (writerId : Nat)
deriving DecidableEq, Repr

/-- The external world state: the filesystem (files and directories) and
the trace of actions performed so far. -/
structure World where
  files : String → Option String
  dirs : List String
  trace : List Action

/-- Exceptions that external framework calls in the summary phase may
raise; they propagate uncaught through `after_create_session`. -/
inductive TfError where
  | markdownError
  | tensorError
  | cacheError
  | addSummaryError
  | flushError
deriving DecidableEq, Repr

/-- The external framework services used by the hook, together with
fault flags marking which external call (if any) raises. -/
structure Env where
  operativeConfigStr : String
  markdown : String → String
  globalStepVarExists : Bool
  writerCache : String → Writer
  markdownRaises : Bool
  tensorRaises : Bool
  cacheGetRaises : Bool
  addSummaryRaises : Bool
  flushRaises : Bool

/-- All external calls of the summary phase succeed. -/
def Env.noFaults (env : Env) : Prop :=
  env.markdownRaises = false ∧ env.tensorRaises = false ∧
  env.cacheGetRaises = false ∧ env.addSummaryRaises = false ∧
  env.flushRaises = false

instance (env : Env) : Decidable env.noFaults := by
  unfold Env.noFaults; infer_instance

/-- The state of a `GinConfigSaverHook` instance, as set by
`GinConfigSaverHook.__init__`. -/
structure Hook where
  output_dir : String
  base_name : String
  summarize_config : Bool
  summary_writer : Option Writer
  include_step_in_filename : Bool

/-- Python `s.startswith(t)`, computed on the character lists. -/
def strStartsWith (s t : String) : Bool := t.data.isPrefixOf s.data

/-- Python `s.endswith(t)`, computed on the character lists. -/
def strEndsWith (s t : String) : Bool :=
  t.data.reverse.isPrefixOf s.data.reverse

/-- `os.path.join(a, b)` for two components (posix semantics): `b` if it
is absolute, else `a` and `b` joined with a separator unless `a` is
empty or already ends with one. -/
def joinPath (a b : String) : String :=
  if strStartsWith b "/" then b
  else if a = "" ∨ strEndsWith a "/" then a ++ b
  else a ++ "/" ++ b

/-- Python truthiness of the `_summary_writer` field: `None` and any
falsy writer object are falsy. -/
def writerTruthy : Option Writer → Bool
  | none => false
  | some wr => wr.truthy

/-- Lines 90-94 of `after_create_session`: `global_step_val = 0`; if a
session was supplied and `tf.compat.v1.train.get_global_step()` returns
a variable, the value is obtained by running that variable in the
session.  The session is modelled by the value its `run` would return
for the global-step variable. -/
def resolvedStep (env : Env) (session : Option Nat) : Nat :=
  match session with
  | none => 0
  | some v => if env.globalStepVarExists then v else 0

/-- Lines 95-99: `'%s-%s.gin' % (base_name, global_step_val)` when the
step is included in the filename, else `'%s.gin' % base_name`. -/
def filenameOf (h : Hook) (step : Nat) : String :=
  if h.include_step_in_filename then
    h.base_name ++ "-" ++ toString step ++ ".gin"
  else
    h.base_name ++ ".gin"

/-- The path the configuration is written to:
`os.path.join(self._output_dir, filename)`. -/
def configPath (env : Env) (h : Hook) (session : Option Nat) : String :=
  joinPath h.output_dir (filenameOf h (resolvedStep env session))

/-- Lines 120-121: `self._summary_writer.add_summary(summary,
global_step_val)` followed by `self._summary_writer.flush()`. -/
def addSummaryAndFlush (env : Env) (h : Hook) (wr : Writer)
    (summary : SummaryRecord) (step : Nat) (w : World) :
    Hook × World × Option TfError :=
  if env.addSummaryRaises then (h, w, some TfError.addSummaryError)
  else
    let w := { w with trace := w.trace ++ [Action.addSummary wr.id summary step] }
    if env.flushRaises then (h, w, some TfError.flushError)
    else (h, { w with trace := w.trace ++ [Action.flush wr.id] }, none)

/-- Lines 114-119: `self._summary_writer =
tf.compat.v1.summary.FileWriterCache.get(self._output_dir)`, then the
add/flush calls on the freshly stored writer. -/
def fetchWriterThen (env : Env) (h : Hook) (summary : SummaryRecord)
    (step : Nat) (w : World) : Hook × World × Option TfError :=
  if env.cacheGetRaises then (h, w, some TfError.cacheError)
  else
    let wr := env.writerCache h.output_dir
    let h := { h with summary_writer := some wr }
    let w := { w with trace := w.trace ++ [Action.cacheGet h.output_dir] }
    addSummaryAndFlush env h wr summary step w

/-- Lines 88-89: `if not tf.io.gfile.isdir(self._output_dir):
tf.io.gfile.makedirs(self._output_dir)`. -/
def ensureDir (dir : String) (w : World) : World :=
  if w.dirs.contains dir then w
  else { w with dirs := dir :: w.dirs,
                trace := w.trace ++ [Action.makedirs dir] }

/-- `GinConfigSaverHook.after_create_session(session, coord)`.  The
`coord` argument is accepted and unused, as in the source.  Returns the
updated hook state, the updated world and the exception raised by an
external call, if any. -/
def after_create_session (env : Env) (h : Hook) (session : Option Nat)
    (_coord : Option Unit) (w : World) : Hook × World × Option TfError :=
  let config_str := env.operativeConfigStr
  let w := ensureDir h.output_dir w
  let global_step_val := resolvedStep env session
  let filename := filenameOf h global_step_val
  let config_path := joinPath h.output_dir filename
  let w := { w with
    files := fun p => if p = config_path then some config_str else w.files p,
    trace := w.trace ++ [Action.writeFile config_path config_str] }
  if h.summarize_config then
    if env.markdownRaises then (h, w, some TfError.markdownError)
    else
      let md_config_str := env.markdown config_str
      if env.tensorRaises then (h, w, some TfError.tensorError)
      else
        let summary : SummaryRecord :=
          { tag := "gin/" ++ h.base_name
            payload := md_config_str
            pluginName := "text"
            pluginContent := "\x7b\x7d" }
        match h.summary_writer with
        | some wr =>
            if wr.truthy then addSummaryAndFlush env h wr summary global_step_val w
            else fetchWriterThen env h summary global_step_val w
        | none => fetchWriterThen env h summary global_step_val w
  else (h, w, none)

/-- The summary record constructed in lines 104-112 of the source:
tag `'gin/' + self._base_name`, payload the markdown-converted config
text, plugin name `'text'`, plugin content `b'{}'`. -/
def summaryOf (env : Env) (h : Hook) : SummaryRecord :=
  { tag := "gin/" ++ h.base_name
    payload := env.markdown env.operativeConfigStr
    pluginName := "text"
    pluginContent := "\x7b\x7d" }

/-! ## The singleton registry

`config.singleton_value` and `config.current_scope_str` live in
`gin/config.py`, which is not part of the sources under study; only the
caller `singleton_per_graph` is.  The registry is therefore modelled
from the spec. -/

/-- Modelled from the spec: the process-wide singleton registry of the
configuration framework (`gin/config.py`, absent from the sources),
together with the constructor-invocation bookkeeping needed to observe
"without invoking the constructor again".  The constructor is a state
transformer `σ → V × σ` so that separate invocations can yield distinct
instances; `ctorCalls` counts its invocations. -/
structure SingState (V σ : Type) where
  registry : List ((String × Nat) × V)
  ctorState : σ
  ctorCalls : Nat

/-- Association-list lookup in the registry, keyed by
(scope string, graph identity). -/
def lookupKey {V : Type} (key : String × Nat) :
    List ((String × Nat) × V) → Option V
  | [] => none
  | (k, v) :: rest => if k = key then some v else lookupKey key rest

/-- Modelled from the spec: `config.singleton_value(key, constructor)`.
"First call for a given key invokes the constructor and stores the
result in a process-wide registry external to this component;
subsequent calls with the same key return the stored instance without
re-invoking the constructor." -/
def singleton_value {V σ : Type} (ctor : σ → V × σ) (key : String × Nat)
    (st : SingState V σ) : V × SingState V σ :=
  match lookupKey key st.registry with
  | some v => (v, st)
  | none =>
    let r := ctor st.ctorState
    (r.1, { registry := (key, r.1) :: st.registry
            ctorState := r.2
            ctorCalls := st.ctorCalls + 1 })

/-- Lines 34-37 of the source: form the key from the current scope
string and the current default graph (both supplied by the ambient
frameworks, here passed as arguments) and delegate to
`config.singleton_value`. -/
def singleton_per_graph {V σ : Type} (ctor : σ → V × σ) (scope : String)
    (graph : Nat) (st : SingState V σ) : V × SingState V σ :=
  singleton_value ctor (scope, graph) st

/-- Number of `FileWriterCache.get` retrievals recorded in a trace. -/
def cacheGetCount : List Action → Nat
  | [] => 0
  | Action.cacheGet _ :: rest => cacheGetCount rest + 1
  | _ :: rest => cacheGetCount rest

/-- Repeated invocation of the callback on the same hook instance, one
invocation per session-creation event, threading the hook state and the
world. -/
def runSessions (env : Env) (h : Hook) (ss : List (Option Nat))
    (w : World) : Hook × World :=
  match ss with
  | [] => (h, w)
  | s :: rest =>
      let r := after_create_session env h s none w
      runSessions env r.1 rest r.2.1

/-! ## Concrete instances used by the witnesses -/

/-- A concrete markdown conversion. -/
def mdFun : String → String := fun s => "md " ++ s

/-- A concrete writer cache; real `FileWriter` objects are truthy. -/
def cacheFun : String → Writer := fun _ => { id := 7, truthy := true }

/-- A concrete fault-free environment. -/
def envA : Env :=
  { operativeConfigStr := "cfg text"
    markdown := mdFun
    globalStepVarExists := true
    writerCache := cacheFun
    markdownRaises := false
    tensorRaises := false
    cacheGetRaises := false
    addSummaryRaises := false
    flushRaises := false }

/-- `envA` with the markdown conversion raising. -/
def envFault : Env := { envA with markdownRaises := true }

/-- A concrete hook with summarization on and no writer supplied. -/
def hookA : Hook :=
  { output_dir := "/tmp/run1"
    base_name := "operative_config"
    summarize_config := true
    summary_writer := none
    include_step_in_filename := true }

/-- `hookA` with summarization off. -/
def hookNoSum : Hook := { hookA with summarize_config := false }

/-- `hookA` with a falsy writer supplied at construction. -/
def hookFalsy : Hook :=
  { hookA with summary_writer := some { id := 3, truthy := false } }

/-- `hookA` without the step in the filename. -/
def hookNoStep : Hook := { hookA with include_step_in_filename := false }

/-- A concrete world whose output directory already exists and which
already holds a file at the path the hook writes to. -/
def worldA : World :=
  { files := fun p => if p = "/tmp/run1/operative_config-5.gin"
                      then some "old contents" else none
    dirs := ["/tmp/run1"]
    trace := [] }

/-- A concrete world with no directories and no files. -/
def worldEmpty : World :=
  { files := fun _ => none, dirs := [], trace := [] }

/-- A concrete constructor returning a fresh value on each invocation. -/
def ctorN : Nat → Nat × Nat := fun n => (n, n + 1)

/-- An empty singleton registry. -/
def stEmpty : SingState Nat Nat :=
  { registry := [], ctorState := 0, ctorCalls := 0 }

/-! ## Helper lemmas about the hook -/

theorem addSummaryAndFlush_files (env : Env) (h : Hook) (wr : Writer)
    (s : SummaryRecord) (step : Nat) (w : World) :
    (addSummaryAndFlush env h wr s step w).2.1.files = w.files := by
  simp only [addSummaryAndFlush]
  split
  · rfl
  · split <;> rfl

theorem addSummaryAndFlush_dirs (env : Env) (h : Hook) (wr : Writer)
    (s : SummaryRecord) (step : Nat) (w : World) :
    (addSummaryAndFlush env h wr s step w).2.1.dirs = w.dirs := by
  simp only [addSummaryAndFlush]
  split
  · rfl
  · split <;> rfl

theorem addSummaryAndFlush_hook (env : Env) (h : Hook) (wr : Writer)
    (s : SummaryRecord) (step : Nat) (w : World) :
    (addSummaryAndFlush env h wr s step w).1 = h := by
  simp only [addSummaryAndFlush]
  split
  · rfl
  · split <;> rfl

theorem addSummaryAndFlush_trace (env : Env) (h : Hook) (wr : Writer)
    (s : SummaryRecord) (step : Nat) (w : World) :
    ∃ t, (addSummaryAndFlush env h wr s step w).2.1.trace = w.trace ++ t := by
  simp only [addSummaryAndFlush]
  split
  · exact ⟨[], by simp⟩
  · split
    · exact ⟨[Action.addSummary wr.id s step], rfl⟩
    · exact ⟨[Action.addSummary wr.id s step, Action.flush wr.id], by simp⟩

theorem fetchWriterThen_files (env : Env) (h : Hook) (s : SummaryRecord)
    (step : Nat) (w : World) :
    (fetchWriterThen env h s step w).2.1.files = w.files := by
  simp only [fetchWriterThen]
  split
  · rfl
  · rw [addSummaryAndFlush_files]

theorem fetchWriterThen_dirs (env : Env) (h : Hook) (s : SummaryRecord)
    (step : Nat) (w : World) :
    (fetchWriterThen env h s step w).2.1.dirs = w.dirs := by
  simp only [fetchWriterThen]
  split
  · rfl
  · rw [addSummaryAndFlush_dirs]

theorem fetchWriterThen_trace (env : Env) (h : Hook) (s : SummaryRecord)
    (step : Nat) (w : World) :
    ∃ t, (fetchWriterThen env h s step w).2.1.trace = w.trace ++ t := by
  simp only [fetchWriterThen]
  split
  · exact ⟨[], by simp⟩
  · obtain ⟨t, ht⟩ := addSummaryAndFlush_trace env
      { h with summary_writer := some (env.writerCache h.output_dir) }
      (env.writerCache h.output_dir) s step
      { w with trace := w.trace ++ [Action.cacheGet h.output_dir] }
    exact ⟨Action.cacheGet h.output_dir :: t, by simpa using ht⟩

theorem ensureDir_files (dir : String) (w : World) :
    (ensureDir dir w).files = w.files := by
  simp only [ensureDir]; split <;> rfl

theorem ensureDir_trace (dir : String) (w : World) :
    (ensureDir dir w).trace =
      if w.dirs.contains dir then w.trace
      else w.trace ++ [Action.makedirs dir] := by
  simp only [ensureDir]; split <;> rfl

theorem ensureDir_dirs (dir : String) (w : World) :
    (ensureDir dir w).dirs =
      if w.dirs.contains dir then w.dirs else dir :: w.dirs := by
  simp only [ensureDir]; split <;> rfl

theorem after_create_session_files (env : Env) (h : Hook)
    (session : Option Nat) (coord : Option Unit) (w : World) :
    (after_create_session env h session coord w).2.1.files =
      fun p => if p = configPath env h session then some env.operativeConfigStr
               else w.files p := by
  simp only [after_create_session, configPath]
  split
  · split
    · simp [ensureDir_files]
    · split
      · simp [ensureDir_files]
      · split
        · split
          · rw [addSummaryAndFlush_files]; simp [ensureDir_files]
          · rw [fetchWriterThen_files]; simp [ensureDir_files]
        · rw [fetchWriterThen_files]; simp [ensureDir_files]
  · simp [ensureDir_files]

theorem after_create_session_dirs (env : Env) (h : Hook)
    (session : Option Nat) (coord : Option Unit) (w : World) :
    (after_create_session env h session coord w).2.1.dirs =
      if w.dirs.contains h.output_dir then w.dirs
      else h.output_dir :: w.dirs := by
  simp only [after_create_session]
  split
  · split
    · simp [ensureDir_dirs]
    · split
      · simp [ensureDir_dirs]
      · split
        · split
          · rw [addSummaryAndFlush_dirs]; simp [ensureDir_dirs]
          · rw [fetchWriterThen_dirs]; simp [ensureDir_dirs]
        · rw [fetchWriterThen_dirs]; simp [ensureDir_dirs]
  · simp [ensureDir_dirs]

theorem after_create_session_trace (env : Env) (h : Hook)
    (session : Option Nat) (coord : Option Unit) (w : World) :
    ∃ rest, (after_create_session env h session coord w).2.1.trace =
      (ensureDir h.output_dir w).trace
        ++ Action.writeFile (configPath env h session) env.operativeConfigStr
          :: rest := by
  simp only [after_create_session, configPath]
  split
  · split
    · exact ⟨[], by simp⟩
    · split
      · exact ⟨[], by simp⟩
      · split
        · split
          · obtain ⟨t, ht⟩ := addSummaryAndFlush_trace env h _ _ _ _
            refine ⟨t, ?_⟩
            rw [ht]; simp
          · obtain ⟨t, ht⟩ := fetchWriterThen_trace env h _ _ _
            refine ⟨t, ?_⟩
            rw [ht]; simp
        · obtain ⟨t, ht⟩ := fetchWriterThen_trace env h _ _ _
          refine ⟨t, ?_⟩
          rw [ht]; simp
  · exact ⟨[], by simp⟩

theorem addSummaryAndFlush_noFaults (env : Env) (h : Hook) (wr : Writer)
    (s : SummaryRecord) (step : Nat) (w : World) (hnf : env.noFaults) :
    addSummaryAndFlush env h wr s step w =
      (h, { w with trace := w.trace ++
              [Action.addSummary wr.id s step, Action.flush wr.id] },
       none) := by
  obtain ⟨-, -, -, h4, h5⟩ := hnf
  simp [addSummaryAndFlush, h4, h5]

theorem fetchWriterThen_noFaults (env : Env) (h : Hook) (s : SummaryRecord)
    (step : Nat) (w : World) (hnf : env.noFaults) :
    fetchWriterThen env h s step w =
      ({ h with summary_writer := some (env.writerCache h.output_dir) },
       { w with trace := w.trace ++
           [Action.cacheGet h.output_dir,
            Action.addSummary (env.writerCache h.output_dir).id s step,
            Action.flush (env.writerCache h.output_dir).id] },
       none) := by
  obtain ⟨-, -, h3, h4, h5⟩ := hnf
  simp [fetchWriterThen, h3, addSummaryAndFlush, h4, h5]

theorem after_create_session_noFaults_fetch (env : Env) (h : Hook)
    (session : Option Nat) (coord : Option Unit) (w : World)
    (hs : h.summarize_config = true)
    (hw : writerTruthy h.summary_writer = false)
    (hnf : env.noFaults) :
    after_create_session env h session coord w =
      ({ h with summary_writer := some (env.writerCache h.output_dir) },
       { files := fun p => if p = configPath env h session
                           then some env.operativeConfigStr else w.files p
         dirs := (ensureDir h.output_dir w).dirs
         trace := (ensureDir h.output_dir w).trace ++
           [Action.writeFile (configPath env h session) env.operativeConfigStr,
            Action.cacheGet h.output_dir,
            Action.addSummary (env.writerCache h.output_dir).id
              (summaryOf env h) (resolvedStep env session),
            Action.flush (env.writerCache h.output_dir).id] },
       none) := by
  obtain ⟨h1, h2, h3, h4, h5⟩ := hnf
  cases hsw : h.summary_writer with
  | none =>
      simp [after_create_session, hs, h1, h2, hsw, fetchWriterThen, h3,
        addSummaryAndFlush, h4, h5, configPath, summaryOf, ensureDir_files]
  | some wr =>
      have htr : wr.truthy = false := by
        simpa [writerTruthy, hsw] using hw
      simp [after_create_session, hs, h1, h2, hsw, htr, fetchWriterThen, h3,
        addSummaryAndFlush, h4, h5, configPath, summaryOf, ensureDir_files]

theorem after_create_session_noFaults_reuse (env : Env) (h : Hook)
    (session : Option Nat) (coord : Option Unit) (w : World) (wr : Writer)
    (hs : h.summarize_config = true)
    (hsw : h.summary_writer = some wr) (ht : wr.truthy = true)
    (hnf : env.noFaults) :
    after_create_session env h session coord w =
      (h,
       { files := fun p => if p = configPath env h session
                           then some env.operativeConfigStr else w.files p
         dirs := (ensureDir h.output_dir w).dirs
         trace := (ensureDir h.output_dir w).trace ++
           [Action.writeFile (configPath env h session) env.operativeConfigStr,
            Action.addSummary wr.id (summaryOf env h) (resolvedStep env session),
            Action.flush wr.id] },
       none) := by
  obtain ⟨h1, h2, -, h4, h5⟩ := hnf
  simp [after_create_session, hs, h1, h2, hsw, ht,
    addSummaryAndFlush, h4, h5, configPath, summaryOf, ensureDir_files]

theorem after_create_session_no_summarize (env : Env) (h : Hook)
    (session : Option Nat) (coord : Option Unit) (w : World)
    (hs : h.summarize_config = false) :
    after_create_session env h session coord w =
      (h,
       { files := fun p => if p = configPath env h session
                           then some env.operativeConfigStr else w.files p
         dirs := (ensureDir h.output_dir w).dirs
         trace := (ensureDir h.output_dir w).trace ++
           [Action.writeFile (configPath env h session)
              env.operativeConfigStr] },
       none) := by
  simp [after_create_session, hs, configPath, ensureDir_files]

theorem cacheGetCount_append (a b : List Action) :
    cacheGetCount (a ++ b) = cacheGetCount a + cacheGetCount b := by
  induction a with
  | nil => simp [cacheGetCount]
  | cons x rest ih =>
      cases x <;> simp [cacheGetCount, ih] <;> omega

theorem run_truthy_reuses (env : Env) (h : Hook) (session : Option Nat)
    (coord : Option Unit) (w : World)
    (hs : h.summarize_config = true) (hnf : env.noFaults)
    (htw : writerTruthy h.summary_writer = true) :
    (after_create_session env h session coord w).1 = h ∧
    cacheGetCount (after_create_session env h session coord w).2.1.trace =
      cacheGetCount w.trace := by
  cases hsw : h.summary_writer with
  | none => simp [writerTruthy, hsw] at htw
  | some wr =>
      have ht : wr.truthy = true := by simpa [writerTruthy, hsw] using htw
      rw [after_create_session_noFaults_reuse env h session coord w wr hs
        hsw ht hnf]
      refine ⟨rfl, ?_⟩
      show cacheGetCount ((ensureDir h.output_dir w).trace ++ _) = _
      rw [cacheGetCount_append, ensureDir_trace]
      split <;> simp [cacheGetCount, cacheGetCount_append]

theorem run_falsy_fetches (env : Env) (h : Hook) (session : Option Nat)
    (coord : Option Unit) (w : World)
    (hs : h.summarize_config = true) (hnf : env.noFaults)
    (htw : writerTruthy h.summary_writer = false) :
    (after_create_session env h session coord w).1 =
      { h with summary_writer := some (env.writerCache h.output_dir) } ∧
    cacheGetCount (after_create_session env h session coord w).2.1.trace =
      cacheGetCount w.trace + 1 := by
  rw [after_create_session_noFaults_fetch env h session coord w hs htw hnf]
  refine ⟨rfl, ?_⟩
  show cacheGetCount ((ensureDir h.output_dir w).trace ++ _) = _
  rw [cacheGetCount_append, ensureDir_trace]
  split <;> simp [cacheGetCount, cacheGetCount_append]

theorem runSessions_at_most_one_fetch (env : Env)
    (ss : List (Option Nat)) :
    ∀ (h : Hook) (w : World), h.summarize_config = true → env.noFaults →
      (env.writerCache h.output_dir).truthy = true →
      (writerTruthy h.summary_writer = true →
        cacheGetCount (runSessions env h ss w).2.trace =
          cacheGetCount w.trace) ∧
      cacheGetCount (runSessions env h ss w).2.trace ≤
        cacheGetCount w.trace + 1 := by
  induction ss with
  | nil => exact fun h w _ _ _ => ⟨fun _ => rfl, Nat.le_succ _⟩
  | cons s rest ih =>
      intro h w hs hnf hc
      simp only [runSessions]
      cases htw : writerTruthy h.summary_writer with
      | true =>
          obtain ⟨hh, hcount⟩ := run_truthy_reuses env h s none w hs hnf htw
          rw [hh]
          obtain ⟨ihtr, ihle⟩ := ih h
            (after_create_session env h s none w).2.1 hs hnf hc
          constructor
          · intro _
            rw [ihtr htw, hcount]
          · have hle := ihle
            rw [hcount] at hle
            exact hle
      | false =>
          obtain ⟨hh, hcount⟩ := run_falsy_fetches env h s none w hs hnf htw
          rw [hh]
          obtain ⟨ihtr, -⟩ := ih
            { h with summary_writer := some (env.writerCache h.output_dir) }
            (after_create_session env h s none w).2.1 hs hnf hc
          rw [ihtr (by simpa [writerTruthy] using hc), hcount]
          constructor
          · intro hcontra
            exact absurd hcontra (by simp)
          · exact Nat.le_refl _

/-! ## Claim theorems -/

/-- Claim C1: for every invocation of
`GinConfigSaverHook.after_create_session` that runs to completion, the
file at `{output_dir}/{filename}` holds exactly the operative
configuration text obtained from the configuration framework at the
start of the callback.  The world `w` is arbitrary, so in particular it
may already hold a file at that path, which the write overwrites. -/
theorem C1_config_file_holds_exact_text (env : Env) (h : Hook)
    (session : Option Nat) (coord : Option Unit) (w : World)
    (hdone : (after_create_session env h session coord w).2.2 = none) :
    (after_create_session env h session coord w).2.1.files
      (configPath env h session) = some env.operativeConfigStr := by
  rw [after_create_session_files]; simp

/-- Witness for C1 at a concrete input whose world already has a file
with different contents at the output path. -/
theorem C1_config_file_holds_exact_text_witness :
    (after_create_session envA hookA (some 5) none worldA).2.2 = none ∧
    worldA.files (configPath envA hookA (some 5)) = some "old contents" ∧
    (after_create_session envA hookA (some 5) none worldA).2.1.files
      (configPath envA hookA (some 5)) = some envA.operativeConfigStr :=
  ⟨rfl, by decide,
   C1_config_file_holds_exact_text envA hookA (some 5) none worldA rfl⟩

/-- Claim C2: the output filename is `{base_name}-{step}.gin` when
`include_step_in_filename` is true and exactly `{base_name}.gin` when it
is false: the run writes the configuration text at the join of the
output directory with that very filename. -/
theorem C2_output_filename (env : Env) (h : Hook) (session : Option Nat)
    (coord : Option Unit) (w : World) :
    (after_create_session env h session coord w).2.1.files
      (joinPath h.output_dir
        (if h.include_step_in_filename then
          h.base_name ++ "-" ++ toString (resolvedStep env session) ++ ".gin"
         else h.base_name ++ ".gin")) = some env.operativeConfigStr := by
  rw [after_create_session_files]
  cases hif : h.include_step_in_filename <;>
    simp [configPath, filenameOf, hif]

/-- Claim C3: the resolved training step is 0 when the session is
absent or no global-step variable exists, and otherwise is the value
the session reports for the global-step variable; in particular with no
session the step-included filename is `{base_name}-0.gin`. -/
theorem C3_resolved_step (env : Env) (session : Option Nat)
    (dir base : String) (sc : Bool) (sw : Option Writer) :
    resolvedStep env session =
      (if session.isSome = true ∧ env.globalStepVarExists = true
       then session.getD 0 else 0) ∧
    filenameOf (Hook.mk dir base sc sw true) (resolvedStep env none) =
      base ++ "-0.gin" := by
  constructor
  · cases session <;> cases hg : env.globalStepVarExists <;>
      simp [resolvedStep, hg]
  · show base ++ "-" ++ toString 0 ++ ".gin" = base ++ "-0.gin"
    rw [String.append_assoc, String.append_assoc]
    exact congrArg (fun s => base ++ s) (by decide)

/-- Claim C10: whenever `after_create_session` raises during the
summary phase (markdown conversion, tensor construction, writer
retrieval, appending or flushing), the configuration file has already
been written with the full configuration text, and in the trace the
file write precedes every summary-related action. -/
theorem C10_write_precedes_summary_failure (env : Env) (h : Hook)
    (session : Option Nat) (coord : Option Unit) (w : World) (e : TfError)
    (herr : (after_create_session env h session coord w).2.2 = some e) :
    (after_create_session env h session coord w).2.1.files
      (configPath env h session) = some env.operativeConfigStr ∧
    ∃ rest, (after_create_session env h session coord w).2.1.trace =
      (ensureDir h.output_dir w).trace
        ++ Action.writeFile (configPath env h session) env.operativeConfigStr
          :: rest := by
  constructor
  · rw [after_create_session_files]; simp
  · exact after_create_session_trace env h session coord w

/-- Witness for C10: with a raising markdown conversion the callback
reports the exception and the file is nevertheless written. -/
theorem C10_write_precedes_summary_failure_witness :
    (after_create_session envFault hookA (some 5) none worldA).2.2 =
      some TfError.markdownError ∧
    ((after_create_session envFault hookA (some 5) none worldA).2.1.files
      (configPath envFault hookA (some 5)) = some envFault.operativeConfigStr ∧
     ∃ rest, (after_create_session envFault hookA (some 5) none worldA).2.1.trace =
       (ensureDir hookA.output_dir worldA).trace
         ++ Action.writeFile (configPath envFault hookA (some 5))
              envFault.operativeConfigStr :: rest) :=
  ⟨rfl, C10_write_precedes_summary_failure envFault hookA (some 5) none worldA
    TfError.markdownError rfl⟩

/-- Claim C4: for a (scope, graph) key not yet in the registry, the
first call to `singleton_per_graph` invokes the constructor and stores
the result in the registry, and a second call with the same key returns
the identical stored instance and leaves the state unchanged, without
invoking the constructor again. -/
theorem C4_singleton_memoizes {V σ : Type} (ctor : σ → V × σ)
    (scope : String) (graph : Nat) (st : SingState V σ)
    (habs : lookupKey (scope, graph) st.registry = none) :
    (singleton_per_graph ctor scope graph st).1 = (ctor st.ctorState).1 ∧
    (singleton_per_graph ctor scope graph st).2.ctorCalls =
      st.ctorCalls + 1 ∧
    lookupKey (scope, graph)
      (singleton_per_graph ctor scope graph st).2.registry =
        some (singleton_per_graph ctor scope graph st).1 ∧
    (singleton_per_graph ctor scope graph
        (singleton_per_graph ctor scope graph st).2).1 =
      (singleton_per_graph ctor scope graph st).1 ∧
    (singleton_per_graph ctor scope graph
        (singleton_per_graph ctor scope graph st).2).2 =
      (singleton_per_graph ctor scope graph st).2 := by
  simp [singleton_per_graph, singleton_value, habs, lookupKey]

/-- Witness for C4 at a concrete constructor and empty registry. -/
theorem C4_singleton_memoizes_witness :
    lookupKey ("scope", 0) stEmpty.registry = none ∧
    ((singleton_per_graph ctorN "scope" 0 stEmpty).1 =
      (ctorN stEmpty.ctorState).1 ∧
    (singleton_per_graph ctorN "scope" 0 stEmpty).2.ctorCalls =
      stEmpty.ctorCalls + 1 ∧
    lookupKey ("scope", 0)
      (singleton_per_graph ctorN "scope" 0 stEmpty).2.registry =
        some (singleton_per_graph ctorN "scope" 0 stEmpty).1 ∧
    (singleton_per_graph ctorN "scope" 0
        (singleton_per_graph ctorN "scope" 0 stEmpty).2).1 =
      (singleton_per_graph ctorN "scope" 0 stEmpty).1 ∧
    (singleton_per_graph ctorN "scope" 0
        (singleton_per_graph ctorN "scope" 0 stEmpty).2).2 =
      (singleton_per_graph ctorN "scope" 0 stEmpty).2) :=
  ⟨rfl, C4_singleton_memoizes ctorN "scope" 0 stEmpty rfl⟩

/-- Claim C8: for two distinct graphs under the same scope,
`singleton_per_graph` invokes the constructor once for each graph, and
the two instances are distinct whenever the constructor yields a fresh
value on its second invocation (as Python object construction does). -/
theorem C8_distinct_graphs_distinct_instances {V σ : Type}
    (ctor : σ → V × σ) (scope : String) (g1 g2 : Nat) (st : SingState V σ)
    (hne : g1 ≠ g2)
    (h1 : lookupKey (scope, g1) st.registry = none)
    (h2 : lookupKey (scope, g2) st.registry = none)
    (hfresh : (ctor st.ctorState).1 ≠ (ctor (ctor st.ctorState).2).1) :
    (singleton_per_graph ctor scope g1 st).2.ctorCalls =
      st.ctorCalls + 1 ∧
    (singleton_per_graph ctor scope g2
        (singleton_per_graph ctor scope g1 st).2).2.ctorCalls =
      st.ctorCalls + 2 ∧
    (singleton_per_graph ctor scope g2
        (singleton_per_graph ctor scope g1 st).2).1 ≠
      (singleton_per_graph ctor scope g1 st).1 := by
  refine ⟨?_, ?_, ?_⟩ <;>
    simp [singleton_per_graph, singleton_value, h1, h2, lookupKey,
      Prod.mk.injEq, hne, Ne.symm hne]
  exact fun heq => hfresh heq.symm

/-- Witness for C8 at a concrete fresh constructor and two graphs. -/
theorem C8_distinct_graphs_distinct_instances_witness :
    (0 : Nat) ≠ 1 ∧
    lookupKey ("scope", 0) stEmpty.registry = none ∧
    lookupKey ("scope", 1) stEmpty.registry = none ∧
    (ctorN stEmpty.ctorState).1 ≠ (ctorN (ctorN stEmpty.ctorState).2).1 ∧
    ((singleton_per_graph ctorN "scope" 0 stEmpty).2.ctorCalls =
      stEmpty.ctorCalls + 1 ∧
    (singleton_per_graph ctorN "scope" 1
        (singleton_per_graph ctorN "scope" 0 stEmpty).2).2.ctorCalls =
      stEmpty.ctorCalls + 2 ∧
    (singleton_per_graph ctorN "scope" 1
        (singleton_per_graph ctorN "scope" 0 stEmpty).2).1 ≠
      (singleton_per_graph ctorN "scope" 0 stEmpty).1) :=
  ⟨by decide, rfl, rfl, by decide,
   C8_distinct_graphs_distinct_instances ctorN "scope" 0 1 stEmpty
     (by decide) rfl rfl (by decide)⟩

/-- Claim C5: with summarization enabled and no writer supplied at
construction, a fault-free run appends exactly one text-typed summary
record tagged `gin/{base_name}` carrying the markdown-converted
configuration text at the resolved step, retrieves the writer from the
directory-keyed cache, caches it on the hook instance, and flushes the
writer after appending. -/
theorem C5_summary_record_appended (env : Env) (h : Hook)
    (session : Option Nat) (coord : Option Unit) (w : World)
    (hs : h.summarize_config = true) (hsw : h.summary_writer = none)
    (hnf : env.noFaults) :
    after_create_session env h session coord w =
      ({ h with summary_writer := some (env.writerCache h.output_dir) },
       { files := fun p => if p = configPath env h session
                           then some env.operativeConfigStr else w.files p
         dirs := (ensureDir h.output_dir w).dirs
         trace := (ensureDir h.output_dir w).trace ++
           [Action.writeFile (configPath env h session)
              env.operativeConfigStr,
            Action.cacheGet h.output_dir,
            Action.addSummary (env.writerCache h.output_dir).id
              { tag := "gin/" ++ h.base_name
                payload := env.markdown env.operativeConfigStr
                pluginName := "text"
                pluginContent := "\x7b\x7d" }
              (resolvedStep env session),
            Action.flush (env.writerCache h.output_dir).id] },
       none) :=
  after_create_session_noFaults_fetch env h session coord w hs
    (by simp [writerTruthy, hsw]) hnf

/-- Witness for C5 at a concrete environment, hook and world. -/
theorem C5_summary_record_appended_witness :
    hookA.summarize_config = true ∧ hookA.summary_writer = none ∧
    envA.noFaults ∧
    after_create_session envA hookA (some 3) none worldA =
      ({ hookA with
          summary_writer := some (envA.writerCache hookA.output_dir) },
       { files := fun p => if p = configPath envA hookA (some 3)
                           then some envA.operativeConfigStr
                           else worldA.files p
         dirs := (ensureDir hookA.output_dir worldA).dirs
         trace := (ensureDir hookA.output_dir worldA).trace ++
           [Action.writeFile (configPath envA hookA (some 3))
              envA.operativeConfigStr,
            Action.cacheGet hookA.output_dir,
            Action.addSummary (envA.writerCache hookA.output_dir).id
              { tag := "gin/" ++ hookA.base_name
                payload := envA.markdown envA.operativeConfigStr
                pluginName := "text"
                pluginContent := "\x7b\x7d" }
              (resolvedStep envA (some 3)),
            Action.flush (envA.writerCache hookA.output_dir).id] },
       none) :=
  ⟨rfl, rfl, by decide,
   C5_summary_record_appended envA hookA (some 3) none worldA rfl rfl
     (by decide)⟩

/-- Claim C6: with summarization disabled the run changes no hook state,
performs no summary-related action (the resulting trace extension holds
only the optional directory creation and the file write), raises
nothing, and the configuration file write is exactly the one performed
when summarization is enabled. -/
theorem C6_no_summarize_frame (env : Env) (h : Hook)
    (session : Option Nat) (coord : Option Unit) (w : World)
    (hs : h.summarize_config = false) :
    after_create_session env h session coord w =
      (h,
       { files := fun p => if p = configPath env h session
                           then some env.operativeConfigStr else w.files p
         dirs := (ensureDir h.output_dir w).dirs
         trace := (ensureDir h.output_dir w).trace ++
           [Action.writeFile (configPath env h session)
              env.operativeConfigStr] },
       none) ∧
    (after_create_session env { h with summarize_config := true }
        session coord w).2.1.files =
      (after_create_session env h session coord w).2.1.files := by
  constructor
  · exact after_create_session_no_summarize env h session coord w hs
  · rw [after_create_session_files, after_create_session_files]
    rfl

/-- Witness for C6 at a concrete environment, hook and world. -/
theorem C6_no_summarize_frame_witness :
    hookNoSum.summarize_config = false ∧
    (after_create_session envA hookNoSum (some 5) none worldA =
      (hookNoSum,
       { files := fun p => if p = configPath envA hookNoSum (some 5)
                           then some envA.operativeConfigStr
                           else worldA.files p
         dirs := (ensureDir hookNoSum.output_dir worldA).dirs
         trace := (ensureDir hookNoSum.output_dir worldA).trace ++
           [Action.writeFile (configPath envA hookNoSum (some 5))
              envA.operativeConfigStr] },
       none) ∧
    (after_create_session envA
        { hookNoSum with summarize_config := true } (some 5) none
        worldA).2.1.files =
      (after_create_session envA hookNoSum (some 5) none
        worldA).2.1.files) :=
  ⟨rfl, C6_no_summarize_frame envA hookNoSum (some 5) none worldA rfl⟩

/-- Claim C7: when the configured output directory is missing it is
created before the configuration file is written (the makedirs action
precedes the write in the trace), and the write succeeds. -/
theorem C7_creates_missing_directory (env : Env) (h : Hook)
    (session : Option Nat) (coord : Option Unit) (w : World)
    (habs : w.dirs.contains h.output_dir = false) :
    (after_create_session env h session coord w).2.1.dirs =
      h.output_dir :: w.dirs ∧
    (∃ rest, (after_create_session env h session coord w).2.1.trace =
      w.trace ++ Action.makedirs h.output_dir ::
        Action.writeFile (configPath env h session) env.operativeConfigStr
          :: rest) ∧
    (after_create_session env h session coord w).2.1.files
      (configPath env h session) = some env.operativeConfigStr := by
  refine ⟨?_, ?_, ?_⟩
  · rw [after_create_session_dirs, habs]; simp
  · obtain ⟨rest, hrest⟩ := after_create_session_trace env h session coord w
    refine ⟨rest, ?_⟩
    rw [hrest, ensureDir_trace, habs]
    simp
  · rw [after_create_session_files]; simp

/-- Witness for C7 at a concrete world with no directories. -/
theorem C7_creates_missing_directory_witness :
    worldEmpty.dirs.contains hookA.output_dir = false ∧
    ((after_create_session envA hookA (some 5) none worldEmpty).2.1.dirs =
      hookA.output_dir :: worldEmpty.dirs ∧
    (∃ rest,
      (after_create_session envA hookA (some 5) none
          worldEmpty).2.1.trace =
        worldEmpty.trace ++ Action.makedirs hookA.output_dir ::
          Action.writeFile (configPath envA hookA (some 5))
            envA.operativeConfigStr :: rest) ∧
    (after_create_session envA hookA (some 5) none worldEmpty).2.1.files
      (configPath envA hookA (some 5)) = some envA.operativeConfigStr) :=
  ⟨rfl, C7_creates_missing_directory envA hookA (some 5) none worldEmpty
    rfl⟩

/-- Claim C9: the writer-reuse check is on truthiness, not on `None`:
with summarization enabled and fault-free externals, any falsy stored
writer (including a falsy writer supplied at construction) is replaced
by the cache-retrieved writer for the output directory (one retrieval),
a truthy stored writer is reused unchanged with no retrieval, and —
when the cache returns a truthy writer — across any sequence of
invocations of the callback on one hook instance at most one writer is
ever cache-retrieved. -/
theorem C9_writer_truthiness_invariant (env : Env) (h : Hook)
    (session : Option Nat) (coord : Option Unit) (w : World)
    (ss : List (Option Nat))
    (hs : h.summarize_config = true) (hnf : env.noFaults)
    (hc : (env.writerCache h.output_dir).truthy = true) :
    (writerTruthy h.summary_writer = false →
      (after_create_session env h session coord w).1.summary_writer =
        some (env.writerCache h.output_dir) ∧
      cacheGetCount
          (after_create_session env h session coord w).2.1.trace =
        cacheGetCount w.trace + 1) ∧
    (writerTruthy h.summary_writer = true →
      (after_create_session env h session coord w).1 = h ∧
      cacheGetCount
          (after_create_session env h session coord w).2.1.trace =
        cacheGetCount w.trace) ∧
    cacheGetCount (runSessions env h ss w).2.trace ≤
      cacheGetCount w.trace + 1 := by
  refine ⟨?_, ?_, ?_⟩
  · intro htw
    obtain ⟨hh, hcount⟩ := run_falsy_fetches env h session coord w hs hnf
      htw
    exact ⟨by rw [hh], hcount⟩
  · exact run_truthy_reuses env h session coord w hs hnf
  · exact (runSessions_at_most_one_fetch env ss h w hs hnf hc).2

/-- Witness for C9 at a concrete hook carrying a falsy writer supplied
at construction, run over two further session events. -/
theorem C9_writer_truthiness_invariant_witness :
    hookFalsy.summarize_config = true ∧ envA.noFaults ∧
    (envA.writerCache hookFalsy.output_dir).truthy = true ∧
    ((writerTruthy hookFalsy.summary_writer = false →
      (after_create_session envA hookFalsy (some 1) none
          worldA).1.summary_writer =
        some (envA.writerCache hookFalsy.output_dir) ∧
      cacheGetCount
          (after_create_session envA hookFalsy (some 1) none
            worldA).2.1.trace =
        cacheGetCount worldA.trace + 1) ∧
    (writerTruthy hookFalsy.summary_writer = true →
      (after_create_session envA hookFalsy (some 1) none worldA).1 =
        hookFalsy ∧
      cacheGetCount
          (after_create_session envA hookFalsy (some 1) none
            worldA).2.1.trace =
        cacheGetCount worldA.trace) ∧
    cacheGetCount
        (runSessions envA hookFalsy [some 1, some 2] worldA).2.trace ≤
      cacheGetCount worldA.trace + 1) :=
  ⟨rfl, by decide, rfl,
   C9_writer_truthiness_invariant envA hookFalsy (some 1) none worldA
     [some 1, some 2] rfl (by decide) rfl⟩

end GinTfUtils
